import Mathlib

/-!
Shallow embedding of the NOOBIE news-aggregation pipeline
(`claud_agent/news_fetcher.py` together with the configuration fields of
`claud_agent/config.py` that it reads).

Network requests, RSS parsing and the system clock are modelled as oracle
parameters: a function giving, for each attempt number, the parsed JSON
response (or `none` for a transport/HTTP error), a function giving the
parsed feed for a topic (or `none` when `feedparser` raises), a jitter
stream for `random.uniform(0, 1)`, and a `now` string for
`datetime.now().isoformat()`.  Python exceptions that escape a function are
modelled with `Except Unit`; Python's arbitrary-precision `int` is `Int`
where a negative value matters (list slicing), `Nat` elsewhere; the float
arithmetic of the Jaccard ratio is modelled exactly over `ℚ`.
-/

namespace Noobie

/-- Python `str.lower()` restricted to the ASCII case mapping. -/
def pyLower (s : String) : String :=
  String.mk (s.data.map Char.toLower)

/-- Accumulator loop for Python `str.split()` (no argument): split on runs
of whitespace, producing no empty tokens.  `acc` holds the current token's
characters in reverse. -/
def splitWSAux : List Char → List Char → List String
  | acc, [] => if acc.isEmpty then [] else [String.mk acc.reverse]
  | acc, c :: cs =>
    if c.isWhitespace then
      if acc.isEmpty then splitWSAux [] cs
      else String.mk acc.reverse :: splitWSAux [] cs
    else splitWSAux (c :: acc) cs

/-- Python `s.split()` with no separator argument. -/
def pySplit (s : String) : List String :=
  splitWSAux [] s.data

/-- `set(article.title.lower().split())` — the token set of a title. -/
def titleTokens (title : String) : Finset String :=
  (pySplit (pyLower title)).toFinset

/-- `set(seen_title.split())` — the stored titles are already lower-cased. -/
def seenTokens (seenTitle : String) : Finset String :=
  (pySplit seenTitle).toFinset

/-- The `NewsArticle` dataclass of `news_fetcher.py`. -/
structure NewsArticle where
  title : String
  summary : String
  url : String
  published_date : String
  source : String
  category : String
  content : Option String := none
  author : Option String := none
  image_url : Option String := none
  sentiment_score : Option ℚ := none
  deriving DecidableEq, Repr

/-- The fields of `NoobieConfig` (config.py) read by the news fetcher.
`max_articles` is a Python `int`, so it is modelled as `Int` (nothing in
`fetch_trending_news` prevents a negative value from reaching the slice). -/
structure NoobieConfig where
  news_api_key : Option String := none
  max_articles : Int := 8
  mock_mode : Bool := false
  news_categories : List String :=
    ["global politics", "technology trends", "economic developments",
     "international affairs", "breaking news"]
  deriving DecidableEq, Repr

/-- Python list slicing `l[:n]` for an arbitrary integer `n`: a negative
stop counts from the end, clamped at 0. -/
def pySliceTo (n : Int) (l : List α) : List α :=
  if 0 ≤ n then l.take n.toNat else l.take (l.length - (-n).toNat)

/-!
## Deduplication (`NewsFetcher._deduplicate_articles`)

The inner loop compares the current title's token set against the token
set of every previously accepted (lower-cased) title.  Python computes
`len(a & b) / len(a | b) > 0.7`; when the union is empty this raises
`ZeroDivisionError`, modelled as `Except.error ()`.  The exact comparison
`i / u > 0.7` over the reals is equivalent to `10 * i > 7 * u`; the loop
below raises exactly when Python would.  Although Python iterates a `set`
of seen titles in unspecified order, the outcome is order-independent: a
comparison can only raise when the current title's token set is empty, and
then no comparison can report a duplicate first and break the loop; so the
seen titles are modelled as a list in acceptance order.
-/

/-- One pass of the `for seen_title in seen_titles` loop: `ok true` when a
duplicate is found (similarity `> 0.7`), `error ()` when a division by
zero occurs first. -/
def isDup (titleWords : Finset String) : List String → Except Unit Bool
  | [] => .ok false
  | seenTitle :: rest =>
    let seenWords := seenTokens seenTitle
    if (titleWords ∪ seenWords).card = 0 then .error ()
    else if 7 * (titleWords ∪ seenWords).card < 10 * (titleWords ∩ seenWords).card then
      .ok true
    else isDup titleWords rest

/-- Main loop of `_deduplicate_articles`: `seen` is the list of accepted
lower-cased titles in acceptance order. -/
def dedupLoop (seen : List String) : List NewsArticle → Except Unit (List NewsArticle)
  | [] => .ok []
  | a :: rest =>
    match isDup (titleTokens a.title) seen with
    | .error e => .error e
    | .ok true => dedupLoop seen rest
    | .ok false =>
      match dedupLoop (seen ++ [pyLower a.title]) rest with
      | .error e => .error e
      | .ok out => .ok (a :: out)

/-- `NewsFetcher._deduplicate_articles`. -/
def deduplicate_articles (articles : List NewsArticle) : Except Unit (List NewsArticle) :=
  dedupLoop [] articles

/-- Equality of `Except` values is decidable when it is on both sides. -/
def exceptDecEq {ε α : Type} [DecidableEq ε] [DecidableEq α] :
    (a b : Except ε α) → Decidable (a = b)
  | .error e, .error f =>
    if h : e = f then .isTrue (by rw [h]) else .isFalse (by simp [h])
  | .error _, .ok _ => .isFalse (by simp)
  | .ok _, .error _ => .isFalse (by simp)
  | .ok a, .ok b =>
    if h : a = b then .isTrue (by rw [h]) else .isFalse (by simp [h])

instance {ε α : Type} [DecidableEq ε] [DecidableEq α] : DecidableEq (Except ε α) :=
  exceptDecEq

/-!
## HTTP retry loop (`NewsFetcher._make_request_with_retry`)

The oracle `respond : Nat → Option GNewsResp` gives, for each attempt
index, either the parsed JSON body (`some`) or a `RequestException`
(`none`).  `jit k` models the `random.uniform(0, 1)` draw of attempt `k`.
The trace records the value returned, the number of requests issued, and
the backoff delays slept (a delay is only slept when a later attempt
remains, mirroring `if attempt < max_retries - 1`).
-/

/-- A GNews API JSON item (`data['articles'][i]`), each field one `.get`. -/
structure GNewsItem where
  title : Option String := none
  description : Option String := none
  url : Option String := none
  publishedAt : Option String := none
  sourceName : Option String := none
  content : Option String := none
  author : Option String := none
  image : Option String := none
  deriving DecidableEq, Repr

/-- A GNews API JSON body; `articles = none` models a dict without the
`'articles'` key (and an empty dict is falsy with no such key either). -/
structure GNewsResp where
  articles : Option (List GNewsItem) := none
  deriving DecidableEq, Repr

/-- Result trace of `_make_request_with_retry`. -/
structure ReqTrace where
  result : Option GNewsResp
  attempts : Nat
  waits : List ℚ
  deriving DecidableEq, Repr

/-- The `for attempt in range(max_retries)` loop: `attempt` is the current
index, `remaining` the number of iterations left (`maxRetries - attempt`).
A successful request returns its body at once; an exception records a
backoff delay of `2 ** attempt + random.uniform(0, 1)`, slept only when
`attempt < max_retries - 1`. -/
def retryGo (respond : Nat → Option GNewsResp) (jit : Nat → ℚ)
    (maxRetries : Nat) : Nat → Nat → ReqTrace
  | _, 0 => ⟨none, 0, []⟩
  | attempt, remaining + 1 =>
    match respond attempt with
    | some data => ⟨some data, 1, []⟩
    | none =>
      let rest := retryGo respond jit maxRetries (attempt + 1) remaining
      { result := rest.result
        attempts := 1 + rest.attempts
        waits := (if attempt < maxRetries - 1 then [(2 : ℚ) ^ attempt + jit attempt]
                  else []) ++ rest.waits }

/-- `NewsFetcher._make_request_with_retry` (default `max_retries = 3`). -/
def make_request_with_retry (respond : Nat → Option GNewsResp) (jit : Nat → ℚ)
    (maxRetries : Nat := 3) : ReqTrace :=
  retryGo respond jit maxRetries 0 maxRetries

/-- Python truthiness of an optional string (`if not self.config.news_api_key`):
`None` and the empty string are falsy. -/
def pyTruthy : Option String → Bool
  | none => false
  | some s => s ≠ ""

/-- Normalization of one GNews item into a `NewsArticle`
(`fetch_gnews`'s constructor call, with each `.get` default). -/
def gnewsToArticle (query : String) (it : GNewsItem) : NewsArticle :=
  { title := it.title.getD ""
    summary := it.description.getD ""
    url := it.url.getD ""
    published_date := it.publishedAt.getD ""
    source := it.sourceName.getD "Unknown"
    category := query
    content := it.content
    author := it.author
    image_url := it.image
    sentiment_score := none }

/-- `NewsFetcher.fetch_gnews`: no API key ⇒ `[]`; otherwise request with
retry, `[]` when all attempts fail or the body lacks `'articles'`, else
normalize the first `max_results` items and keep those with non-empty
title and summary. -/
def fetch_gnews (cfg : NoobieConfig) (respond : Nat → Option GNewsResp)
    (jit : Nat → ℚ) (query : String) (maxResults : Nat := 10) : List NewsArticle :=
  if pyTruthy cfg.news_api_key = false then []
  else
    match (make_request_with_retry respond jit 3).result with
    | none => []
    | some data =>
      match data.articles with
      | none => []
      | some items =>
        ((items.take maxResults).map (gnewsToArticle query)).filter
          (fun a => a.title ≠ "" && a.summary ≠ "")

/-- One entry of a parsed RSS feed (`feed.entries[i]`). -/
structure RSSEntry where
  title : Option String := none
  summary : Option String := none
  description : Option String := none
  link : Option String := none
  published : Option String := none
  publishedParsedIso : Option String := none
  author : Option String := none
  deriving DecidableEq, Repr

/-- A parsed RSS feed (`feedparser.parse` result); modelled as `none`
when parsing raises, making `fetch_rss_feed` return `[]`. -/
structure RSSFeed where
  feedTitle : Option String := none
  entries : List RSSEntry := []
  deriving DecidableEq, Repr

/-- Normalization of one RSS entry (`fetch_rss_feed`'s constructor call):
the summary falls back to the description, the publication date prefers
the parsed `published_parsed` ISO form over the raw `published` string. -/
def rssToArticle (category : String) (feedTitle : Option String)
    (e : RSSEntry) : NewsArticle :=
  { title := e.title.getD ""
    summary := e.summary.getD (e.description.getD "")
    url := e.link.getD ""
    published_date :=
      match e.publishedParsedIso with
      | some iso => iso
      | none => e.published.getD ""
    source := feedTitle.getD "RSS Feed"
    category := category
    content := none
    author := e.author
    image_url := none
    sentiment_score := none }

/-- `NewsFetcher.fetch_rss_feed`: any exception ⇒ `[]`; otherwise the
first `max_results` entries with non-empty title and summary. -/
def fetch_rss_feed (feedOracle : Option RSSFeed) (category : String)
    (maxResults : Nat := 10) : List NewsArticle :=
  match feedOracle with
  | none => []
  | some feed =>
    ((feed.entries.take maxResults).map (rssToArticle category feed.feedTitle)).filter
      (fun a => a.title ≠ "" && a.summary ≠ "")

/-- `NewsFetcher.fetch_google_news_rss`: builds the Google News search
URL for the query and delegates to `fetch_rss_feed` with the query as
category; the oracle is keyed by the query. -/
def fetch_google_news_rss (ror : String → Option RSSFeed) (query : String)
    (maxResults : Nat := 10) : List NewsArticle :=
  fetch_rss_feed (ror query) query maxResults

/-- Python `str.title()` for ASCII text: the first letter of each
alphabetic run is upper-cased, the rest lower-cased. -/
def pyTitleAux : Bool → List Char → List Char
  | _, [] => []
  | prevAlpha, c :: cs =>
    if c.isAlpha then
      (if prevAlpha then c.toLower else c.toUpper) :: pyTitleAux true cs
    else c :: pyTitleAux false cs

/-- Python `s.title()`. -/
def pyTitle (s : String) : String :=
  String.mk (pyTitleAux false s.data)

/-- The three fixed mock templates of `generate_mock_articles`:
(title, summary, source). -/
def mockTemplates (category : String) : List (String × String × String) :=
  [("Breaking: Major Development in " ++ pyTitle category,
    "Recent developments in " ++ category ++
      " show significant changes that could impact global markets and policy decisions.",
    "Mock News Network"),
   (pyTitle category ++ " Trends Show Positive Growth",
    "Analysis of current " ++ category ++
      " trends indicates sustained growth and positive outlook for the coming months.",
    "Global Analysis Today"),
   ("Expert Commentary on " ++ pyTitle category ++ " Developments",
    "Leading experts weigh in on recent " ++ category ++
      " developments and their potential implications.",
    "Expert Insights")]

/-- The article built from template `t` at loop index `idx` in
`generate_mock_articles`. -/
def mockArticle (now category : String) (idx : Nat)
    (t : String × String × String) : NewsArticle :=
  { title := t.1
    summary := t.2.1
    url := "https://mock-news.com/article-" ++ toString (idx + 1)
    published_date := now
    source := t.2.2
    category := category
    content := some ("Full content for " ++ t.1 ++ "...")
    author := none
    image_url := none
    sentiment_score := none }

/-- The `for i in range(min(count, len(mock_templates)))` loop of
`generate_mock_articles`, carrying the current index. -/
def mockBuild (now category : String) : Nat → List (String × String × String) → List NewsArticle
  | _, [] => []
  | i, t :: rest => mockArticle now category i t :: mockBuild now category (i + 1) rest

/-- `NewsFetcher.generate_mock_articles`: `[]` unless mock mode, else the
first `min(count, 3)` templates instantiated at the category, with a
synthetic URL numbered from 1 and `now` as publication date. -/
def generate_mock_articles (cfg : NoobieConfig) (now : String)
    (category : String) (count : Nat := 5) : List NewsArticle :=
  if cfg.mock_mode = false then []
  else mockBuild now category 0 ((mockTemplates category).take count)

/-!
## The trending pipeline (`NewsFetcher.fetch_trending_news`)

Oracles: `gor topic attempt` is the keyed-API response for `topic` at
retry attempt `attempt`; `ror topic` is the parsed Google News feed for
`topic`; `jit` the jitter stream; `now` the clock.  The per-topic stage
is instrumented with flags recording whether the feed fallback and the
mock stage were invoked, so that the fallback conditions are observable.
-/

/-- The keyed-source contribution for one topic inside
`fetch_trending_news`: `fetch_gnews(category, max_results=3)` guarded by
`if self.config.news_api_key`. -/
def keyedResults (cfg : NoobieConfig) (gor : String → Nat → Option GNewsResp)
    (jit : Nat → ℚ) (topic : String) : List NewsArticle :=
  if pyTruthy cfg.news_api_key then fetch_gnews cfg (gor topic) jit topic 3 else []

/-- Per-topic result of the loop body of `fetch_trending_news`, with
flags recording which fallback stages ran. -/
structure TopicTrace where
  articles : List NewsArticle
  rssInvoked : Bool
  mockInvoked : Bool
  deriving DecidableEq, Repr

/-- One iteration of the `for category in self.config.news_categories`
loop of `fetch_trending_news`. -/
def fetchTopic (cfg : NoobieConfig) (gor : String → Nat → Option GNewsResp)
    (ror : String → Option RSSFeed) (jit : Nat → ℚ) (now : String)
    (topic : String) : TopicTrace :=
  let afterGnews := keyedResults cfg gor jit topic
  let rssInvoked := afterGnews.length < 2
  let afterRss :=
    if afterGnews.length < 2 then
      afterGnews ++ fetch_google_news_rss ror topic 3
    else afterGnews
  let mockInvoked := afterRss.length < 1 && cfg.mock_mode
  let afterMock :=
    if afterRss.length < 1 && cfg.mock_mode then
      afterRss ++ generate_mock_articles cfg now topic 2
    else afterRss
  ⟨afterMock, rssInvoked, mockInvoked⟩

/-- `NewsFetcher.fetch_trending_news`: concatenate the per-topic results
in topic order, deduplicate (which may raise), then truncate with the
Python slice `[:max_articles]`. -/
def fetch_trending_news (cfg : NoobieConfig) (gor : String → Nat → Option GNewsResp)
    (ror : String → Option RSSFeed) (jit : Nat → ℚ) (now : String) :
    Except Unit (List NewsArticle) :=
  let allArticles :=
    (cfg.news_categories.map fun t => (fetchTopic cfg gor ror jit now t).articles).flatten
  match deduplicate_articles allArticles with
  | .error e => .error e
  | .ok uniqueArticles => .ok (pySliceTo cfg.max_articles uniqueArticles)

/-!
## Cache file (`save_articles_cache` / `load_articles_cache`)

The cache is a JSON document; we model JSON values directly (CPython's
`json.dump`/`json.load` round-trips such a document exactly, preserving
key order).  `save_articles_cache` serializes
`{timestamp, count, articles: [a.to_dict() for a in articles]}`;
`load_articles_cache` reads `cache_data.get('articles', [])` and rebuilds
each record with `NewsArticle(**article_data)`, returning `[]` if any
exception occurs.  Python's dataclass call performs no type check; the
typed embedding reads each field back at the type `to_dict` wrote it
with, which is all the round-trip exercises. -/

/-- A JSON value (the subset the cache uses). -/
inductive JValue where
  | null : JValue
  | str : String → JValue
  | num : ℚ → JValue
  | arr : List JValue → JValue
  | obj : List (String × JValue) → JValue

/-- An optional string field of `to_dict`: `None` becomes JSON `null`. -/
def optStrJ : Option String → JValue
  | none => .null
  | some s => .str s

/-- The optional numeric field of `to_dict`. -/
def optNumJ : Option ℚ → JValue
  | none => .null
  | some q => .num q

/-- `NewsArticle.to_dict`, as the JSON object `json.dump` writes
(CPython dicts preserve insertion order). -/
def articleToDict (a : NewsArticle) : JValue :=
  .obj [("title", .str a.title), ("summary", .str a.summary),
        ("url", .str a.url), ("published_date", .str a.published_date),
        ("source", .str a.source), ("category", .str a.category),
        ("content", optStrJ a.content), ("author", optStrJ a.author),
        ("image_url", optStrJ a.image_url),
        ("sentiment_score", optNumJ a.sentiment_score)]

/-- `NewsFetcher.save_articles_cache`: the document written to the cache
file (`timestamp` is `datetime.now().isoformat()`). -/
def save_articles_cache (articles : List NewsArticle) (timestamp : String) : JValue :=
  .obj [("timestamp", .str timestamp),
        ("count", .num articles.length),
        ("articles", .arr (articles.map articleToDict))]

/-- Reading an optional string field back (`null` ⇒ `None`). -/
def optStrOf : JValue → Except Unit (Option String)
  | .null => .ok none
  | .str s => .ok (some s)
  | _ => .error ()

/-- Reading the optional numeric field back. -/
def optNumOf : JValue → Except Unit (Option ℚ)
  | .null => .ok none
  | .num q => .ok (some q)
  | _ => .error ()

/-- `NewsArticle(**article_data)`: succeeds on exactly the keyword set
`to_dict` produces (a missing or unexpected key is a `TypeError`). -/
def articleFromDict : JValue → Except Unit NewsArticle
  | .obj [("title", .str t), ("summary", .str s), ("url", .str u),
          ("published_date", .str pd), ("source", .str src),
          ("category", .str c), ("content", co), ("author", au),
          ("image_url", im), ("sentiment_score", sc)] =>
    match optStrOf co, optStrOf au, optStrOf im, optNumOf sc with
    | .ok co, .ok au, .ok im, .ok sc => .ok ⟨t, s, u, pd, src, c, co, au, im, sc⟩
    | _, _, _, _ => .error ()
  | _ => .error ()

/-- The `for article_data in ...` loop of `load_articles_cache`: an
exception on any element aborts the whole load. -/
def loadArticlesLoop : List JValue → Except Unit (List NewsArticle)
  | [] => .ok []
  | d :: rest =>
    match articleFromDict d with
    | .error e => .error e
    | .ok a =>
      match loadArticlesLoop rest with
      | .error e => .error e
      | .ok l => .ok (a :: l)

/-- The body of `load_articles_cache`'s `try` block: look up
`'articles'` (default `[]`) and rebuild every record. -/
def loadCacheE (doc : JValue) : Except Unit (List NewsArticle) :=
  match doc with
  | .obj fields =>
    match (fields.lookup "articles").getD (.arr []) with
    | .arr items => loadArticlesLoop items
    | _ => .error ()
  | _ => .error ()

/-- `NewsFetcher.load_articles_cache`: any exception ⇒ `[]`. -/
def load_articles_cache (doc : JValue) : List NewsArticle :=
  match loadCacheE doc with
  | .ok articles => articles
  | .error _ => []

/-- The spec's duplicate example: "Fed Raises Interest Rates Again". -/
def fedAgain : NewsArticle :=
  { title := "Fed Raises Interest Rates Again", summary := "s1", url := "u1",
    published_date := "d1", source := "m1", category := "c1" }

/-- The spec's duplicate example: "Fed Raises Interest Rates". -/
def fedPlain : NewsArticle :=
  { title := "Fed Raises Interest Rates", summary := "s2", url := "u2",
    published_date := "d2", source := "m2", category := "c2" }

/-- A keyed-API oracle giving every topic three distinct single-token
titles. -/
def gorW : String → Nat → Option GNewsResp := fun t _ =>
  some { articles := some [{ title := some (t ++ "1"), description := some "d" },
                           { title := some (t ++ "2"), description := some "d" },
                           { title := some (t ++ "3"), description := some "d" }] }

/-- Two-topic configuration with `max_articles = 4`. -/
def cfgW7 : NoobieConfig :=
  { news_api_key := some "k", max_articles := 4, mock_mode := false,
    news_categories := ["alpha", "beta"] }

/-- Mock-mode configuration without an API key. -/
def cfgMockW : NoobieConfig :=
  { news_api_key := none, max_articles := 8, mock_mode := true,
    news_categories := ["sports"] }

end Noobie

namespace Noobie

/-!
# Verification

Shared lemmas about the deduplication loop, followed by one theorem per
specified property.
-/

/-- The stored titles are compared with `set(seen_title.split())`; on a
lower-cased title this is the same token set as `titleTokens`. -/
theorem seenTokens_pyLower (t : String) : seenTokens (pyLower t) = titleTokens t := rfl

/-- When the current title has at least one token, no comparison of the
inner loop can divide by zero, so `isDup` never raises. -/
theorem isDup_ok_of_nonempty (tw : Finset String) (htw : tw ≠ ∅) :
    ∀ seen : List String, ∃ b, isDup tw seen = .ok b := by
  intro seen
  induction seen with
  | nil => exact ⟨false, rfl⟩
  | cons s rest ih =>
    have hcard : ¬ (tw ∪ seenTokens s).card = 0 := by
      rw [Finset.card_eq_zero, Finset.union_eq_empty]
      exact fun hh => htw hh.1
    simp only [isDup]
    rw [if_neg hcard]
    by_cases hlt : 7 * (tw ∪ seenTokens s).card < 10 * (tw ∩ seenTokens s).card
    · exact ⟨true, by rw [if_pos hlt]⟩
    · rw [if_neg hlt]; exact ih

/-- If every article's title has at least one token, the deduplication
loop succeeds (no `ZeroDivisionError`), whatever titles were already seen. -/
theorem dedupLoop_ok_of_nonempty :
    ∀ xs : List NewsArticle, (∀ a ∈ xs, titleTokens a.title ≠ ∅) →
      ∀ seen : List String, ∃ ys, dedupLoop seen xs = .ok ys := by
  intro xs
  induction xs with
  | nil => exact fun _ seen => ⟨[], rfl⟩
  | cons a rest ih =>
    intro hx seen
    obtain ⟨b, hb⟩ := isDup_ok_of_nonempty _ (hx a (List.mem_cons_self a rest)) seen
    have hrest : ∀ a' ∈ rest, titleTokens a'.title ≠ ∅ :=
      fun a' h => hx a' (List.mem_cons_of_mem _ h)
    cases b with
    | true =>
      obtain ⟨ys, hys⟩ := ih hrest seen
      exact ⟨ys, by simp only [dedupLoop, hb, hys]⟩
    | false =>
      obtain ⟨ys, hys⟩ := ih hrest (seen ++ [pyLower a.title])
      exact ⟨a :: ys, by simp only [dedupLoop, hb, hys]⟩

/-- Everything the deduplication loop returns was in its input. -/
theorem dedupLoop_subset :
    ∀ (xs : List NewsArticle) (seen : List String) (ys : List NewsArticle),
      dedupLoop seen xs = .ok ys → ys ⊆ xs := by
  intro xs
  induction xs with
  | nil =>
    intro seen ys h
    injection h with h
    simp [← h]
  | cons a rest ih =>
    intro seen ys h
    simp only [dedupLoop] at h
    cases hd : isDup (titleTokens a.title) seen with
    | error e => rw [hd] at h; exact absurd h (by simp)
    | ok b =>
      rw [hd] at h
      cases b with
      | true =>
        exact List.Subset.trans (ih seen ys h) (List.subset_cons_self a rest)
      | false =>
        cases hout : dedupLoop (seen ++ [pyLower a.title]) rest with
        | error e => rw [hout] at h; exact absurd h (by simp)
        | ok out =>
          rw [hout] at h
          injection h with h
          rw [← h]
          exact List.cons_subset_cons a (ih _ out hout)

/-- Re-running the loop on its own output (with the same initial seen
set) accepts every article again. -/
theorem dedupLoop_idem :
    ∀ (xs : List NewsArticle) (seen : List String) (ys : List NewsArticle),
      dedupLoop seen xs = .ok ys → dedupLoop seen ys = .ok ys := by
  intro xs
  induction xs with
  | nil =>
    intro seen ys h
    injection h with h
    rw [← h]
    rfl
  | cons a rest ih =>
    intro seen ys h
    simp only [dedupLoop] at h
    cases hd : isDup (titleTokens a.title) seen with
    | error e => rw [hd] at h; exact absurd h (by simp)
    | ok b =>
      rw [hd] at h
      cases b with
      | true => exact ih seen ys h
      | false =>
        cases hout : dedupLoop (seen ++ [pyLower a.title]) rest with
        | error e => rw [hout] at h; exact absurd h (by simp)
        | ok out =>
          rw [hout] at h
          injection h with h
          rw [← h]
          simp only [dedupLoop, hd, ih _ _ hout]

/-- The exact-arithmetic form of the float comparison
`len(a & b) / len(a | b) > 0.7`. -/
theorem ratio_gt_iff (i u : ℕ) (hu : 0 < u) :
    ((7 : ℚ) / 10 < (i : ℚ) / (u : ℚ)) ↔ 7 * u < 10 * i := by
  rw [div_lt_div_iff₀ (by norm_num) (by exact_mod_cast hu)]
  rw [show ((7 : ℚ) * u = ((7 * u : ℕ) : ℚ)) by push_cast; ring,
      show ((i : ℚ) * 10 = ((10 * i : ℕ) : ℚ)) by push_cast; ring]
  exact Nat.cast_lt

/-- On a two-article list the loop keeps the first article always and the
second exactly when the token-overlap test does not exceed the threshold. -/
theorem dedup_pair_cases (a b : NewsArticle)
    (h0 : (titleTokens b.title ∪ titleTokens a.title).card ≠ 0) :
    deduplicate_articles [a, b] =
      if 7 * (titleTokens b.title ∪ titleTokens a.title).card <
          10 * (titleTokens b.title ∩ titleTokens a.title).card
      then .ok [a] else .ok [a, b] := by
  by_cases hbr : 7 * (titleTokens b.title ∪ titleTokens a.title).card <
      10 * (titleTokens b.title ∩ titleTokens a.title).card
  · simp only [deduplicate_articles, dedupLoop, isDup, List.nil_append,
      seenTokens_pyLower, if_neg h0, if_pos hbr]
  · simp only [deduplicate_articles, dedupLoop, isDup, List.nil_append,
      seenTokens_pyLower, if_neg h0, if_neg hbr]

/-- C3: for a pair of articles (whose titles have at least one token
between them, so that the similarity is defined), deduplication retains
both when the Jaccard similarity of the lower-cased whitespace-tokenized
titles is ≤ 0.7, and retains only the first-seen article when it exceeds
0.7. -/
theorem dedup_pair_jaccard (a b : NewsArticle)
    (h : (titleTokens a.title ∪ titleTokens b.title).Nonempty) :
    (((titleTokens a.title ∩ titleTokens b.title).card : ℚ) /
        ((titleTokens a.title ∪ titleTokens b.title).card : ℚ) ≤ 7 / 10 →
      deduplicate_articles [a, b] = .ok [a, b]) ∧
    ((7 : ℚ) / 10 <
        ((titleTokens a.title ∩ titleTokens b.title).card : ℚ) /
          ((titleTokens a.title ∪ titleTokens b.title).card : ℚ) →
      deduplicate_articles [a, b] = .ok [a]) := by
  have hu : 0 < (titleTokens a.title ∪ titleTokens b.title).card := Finset.card_pos.mpr h
  have hcu : titleTokens b.title ∪ titleTokens a.title =
      titleTokens a.title ∪ titleTokens b.title := Finset.union_comm _ _
  have hci : titleTokens b.title ∩ titleTokens a.title =
      titleTokens a.title ∩ titleTokens b.title := Finset.inter_comm _ _
  have h0 : (titleTokens b.title ∪ titleTokens a.title).card ≠ 0 := by
    rw [hcu]; omega
  have hcases := dedup_pair_cases a b h0
  rw [hcu, hci] at hcases
  have key := ratio_gt_iff ((titleTokens a.title ∩ titleTokens b.title).card)
      ((titleTokens a.title ∪ titleTokens b.title).card) hu
  constructor
  · intro hle
    rw [hcases, if_neg (fun hcon => absurd (key.mpr hcon) (not_lt.mpr hle))]
  · intro hgt
    rw [hcases, if_pos (key.mp hgt)]

/-- C3 witness: the two Fed titles share 4 of 5 tokens (similarity 0.8),
so only the first-seen survives. -/
theorem dedup_pair_jaccard_witness :
    (titleTokens fedAgain.title ∪ titleTokens fedPlain.title).Nonempty ∧
    (7 : ℚ) / 10 <
      ((titleTokens fedAgain.title ∩ titleTokens fedPlain.title).card : ℚ) /
        ((titleTokens fedAgain.title ∪ titleTokens fedPlain.title).card : ℚ) ∧
    deduplicate_articles [fedAgain, fedPlain] = .ok [fedAgain] := by
  have hi : (titleTokens fedAgain.title ∩ titleTokens fedPlain.title).card = 4 := by decide
  have hu : (titleTokens fedAgain.title ∪ titleTokens fedPlain.title).card = 5 := by decide
  refine ⟨by decide, ?_, ?_⟩
  · rw [hi, hu]; norm_num
  · exact (dedup_pair_jaccard fedAgain fedPlain (by decide)).2 (by rw [hi, hu]; norm_num)

/-- C4: deduplication is idempotent — whenever `_deduplicate_articles`
succeeds, running it again on its own output returns that output. -/
theorem deduplicate_idempotent (xs ys : List NewsArticle)
    (h : deduplicate_articles xs = .ok ys) :
    deduplicate_articles ys = .ok ys :=
  dedupLoop_idem xs [] ys h

/-- C4 witness: idempotence at the concrete Fed pair. -/
theorem deduplicate_idempotent_witness :
    deduplicate_articles [fedAgain, fedPlain] = .ok [fedAgain] ∧
    deduplicate_articles [fedAgain] = .ok [fedAgain] :=
  ⟨by decide, deduplicate_idempotent [fedAgain, fedPlain] [fedAgain] (by decide)⟩

/-- C9: the Jaccard division is unguarded — when every input title
tokenizes to a non-empty set the denominator is never zero and
deduplication is total, but two articles with whitespace-only titles
(non-empty strings with empty token sets) make
`len(title_words | seen_words)` zero and raise `ZeroDivisionError`. -/
theorem dedup_unguarded_division :
    (∀ articles : List NewsArticle,
        (∀ a ∈ articles, titleTokens a.title ≠ ∅) →
        ∃ ys, deduplicate_articles articles = .ok ys) ∧
    deduplicate_articles
        [{ title := " ", summary := "s1", url := "u1", published_date := "d1",
           source := "m1", category := "c1" },
         { title := "  ", summary := "s2", url := "u2", published_date := "d2",
           source := "m2", category := "c2" }] = .error () := by
  refine ⟨fun xs hx => dedupLoop_ok_of_nonempty xs hx [], ?_⟩
  decide

/-- C9 witness: the totality half applied to the Fed pair, whose titles
all have tokens. -/
theorem dedup_unguarded_division_witness :
    (∀ a ∈ [fedAgain, fedPlain], titleTokens a.title ≠ ∅) ∧
    ∃ ys, deduplicate_articles [fedAgain, fedPlain] = .ok ys :=
  ⟨by decide, dedup_unguarded_division.1 [fedAgain, fedPlain] (by decide)⟩

/-- A non-negative Python slice `l[:n]` keeps at most `n` elements. -/
theorem pySliceTo_length_le (n : Int) (hn : 0 ≤ n) (l : List α) :
    ((pySliceTo n l).length : Int) ≤ n := by
  rw [pySliceTo, if_pos hn]
  have h1 : (l.take n.toNat).length ≤ n.toNat := by
    rw [List.length_take]
    exact min_le_left _ _
  omega

/-- C1 counterexample: `fetch_trending_news` applies the Python slice
`unique_articles[:max_articles]` without validating the configuration;
with `max_articles = -1` (constructible, and rejected only by the unused
`validate`) the returned list has length 0, which is not `≤ -1`, so the
claim quantified over every configuration fails. -/
theorem fetch_trending_respects_max_cex :
    fetch_trending_news
        { news_api_key := none, max_articles := -1, mock_mode := false,
          news_categories := [] }
        (fun _ _ => none) (fun _ => none) (fun _ => 0) "now" = .ok [] ∧
    ¬ ((([] : List NewsArticle).length : Int) ≤
        ({ news_api_key := none, max_articles := -1, mock_mode := false,
           news_categories := [] } : NoobieConfig).max_articles) := by
  exact ⟨rfl, by decide⟩

/-- C1 (amended): for every configuration whose `max_articles` is
non-negative (in particular every configuration accepted by
`NoobieConfig.validate`), `fetch_trending_news` returns at most
`max_articles` articles. -/
theorem fetch_trending_respects_max (cfg : NoobieConfig)
    (hmax : 0 ≤ cfg.max_articles)
    (gor : String → Nat → Option GNewsResp) (ror : String → Option RSSFeed)
    (jit : Nat → ℚ) (now : String) (out : List NewsArticle)
    (h : fetch_trending_news cfg gor ror jit now = .ok out) :
    (out.length : Int) ≤ cfg.max_articles := by
  unfold fetch_trending_news at h
  dsimp only at h
  cases hd : deduplicate_articles
      ((cfg.news_categories.map fun t =>
        (fetchTopic cfg gor ror jit now t).articles).flatten) with
  | error e => rw [hd] at h; exact absurd h (by simp)
  | ok unique =>
    rw [hd] at h
    injection h with h
    rw [← h]
    exact pySliceTo_length_le cfg.max_articles hmax unique

/-- C1 witness: the amended bound at a concrete mock-mode configuration. -/
theorem fetch_trending_respects_max_witness :
    (0 : Int) ≤ ({ news_api_key := none, max_articles := 8, mock_mode := true,
                   news_categories := ["tech"] } : NoobieConfig).max_articles ∧
    ∃ out, fetch_trending_news
        { news_api_key := none, max_articles := 8, mock_mode := true,
          news_categories := ["tech"] }
        (fun _ _ => none) (fun _ => none) (fun _ => 0) "now" = .ok out ∧
      (out.length : Int) ≤ 8 := by
  refine ⟨by decide, ?_⟩
  cases hcall : fetch_trending_news
      { news_api_key := none, max_articles := 8, mock_mode := true,
        news_categories := ["tech"] }
      (fun _ _ => none) (fun _ => none) (fun _ => 0) "now" with
  | error e => cases e; exact absurd hcall (by decide)
  | ok out =>
    exact ⟨out, rfl,
      fetch_trending_respects_max _ (by decide) _ _ _ _ out hcall⟩

/-- A non-empty string stays non-empty after appending on the right. -/
theorem append_ne_empty_left (p s : String) (hp : p ≠ "") : p ++ s ≠ "" := by
  intro h
  apply hp
  apply String.ext
  have hd := congrArg String.data h
  rw [String.data_append] at hd
  have hnil : p.data = [] := (List.append_eq_nil.mp hd).1
  simpa using hnil

/-- A non-empty string stays non-empty after appending on the left. -/
theorem append_ne_empty_right (p s : String) (hs : s ≠ "") : p ++ s ≠ "" := by
  intro h
  apply hs
  apply String.ext
  have hd := congrArg String.data h
  rw [String.data_append] at hd
  have hnil : s.data = [] := (List.append_eq_nil.mp hd).2
  simpa using hnil

/-- Membership in the title/summary filter shared by both fetchers. -/
theorem mem_title_summary_filter {l : List NewsArticle} {a : NewsArticle}
    (h : a ∈ l.filter (fun a => a.title ≠ "" && a.summary ≠ "")) :
    a.title ≠ "" ∧ a.summary ≠ "" := by
  have h2 := (List.mem_filter.mp h).2
  simpa using h2

/-- Every article `fetch_gnews` returns passed the title/summary filter. -/
theorem fetch_gnews_fields (cfg : NoobieConfig) (respond : Nat → Option GNewsResp)
    (jit : Nat → ℚ) (query : String) (maxResults : Nat) (a : NewsArticle)
    (h : a ∈ fetch_gnews cfg respond jit query maxResults) :
    a.title ≠ "" ∧ a.summary ≠ "" := by
  unfold fetch_gnews at h
  split at h
  · exact absurd h (List.not_mem_nil a)
  · split at h
    · exact absurd h (List.not_mem_nil a)
    · split at h
      · exact absurd h (List.not_mem_nil a)
      · exact mem_title_summary_filter h

/-- Every article `fetch_rss_feed` returns passed the title/summary filter. -/
theorem fetch_rss_feed_fields (feedOracle : Option RSSFeed) (category : String)
    (maxResults : Nat) (a : NewsArticle)
    (h : a ∈ fetch_rss_feed feedOracle category maxResults) :
    a.title ≠ "" ∧ a.summary ≠ "" := by
  unfold fetch_rss_feed at h
  split at h
  · exact absurd h (List.not_mem_nil a)
  · exact mem_title_summary_filter h

/-- Every article the mock loop builds comes from some template. -/
theorem mockBuild_mem (now category : String) :
    ∀ (l : List (String × String × String)) (i : Nat) (a : NewsArticle),
      a ∈ mockBuild now category i l →
      ∃ j t, t ∈ l ∧ a = mockArticle now category j t := by
  intro l
  induction l with
  | nil => intro i a ha; exact absurd ha (List.not_mem_nil a)
  | cons t rest ih =>
    intro i a ha
    rw [mockBuild] at ha
    rcases List.mem_cons.mp ha with hh | hh
    · exact ⟨i, t, List.mem_cons_self t rest, hh⟩
    · obtain ⟨j, t', ht', hj⟩ := ih (i + 1) a hh
      exact ⟨j, t', List.mem_cons_of_mem _ ht', hj⟩

/-- Every template instantiation has a non-empty title and summary: every
template's title and summary contain a non-empty constant part. -/
theorem generate_mock_fields (cfg : NoobieConfig) (now category : String)
    (count : Nat) (a : NewsArticle)
    (h : a ∈ generate_mock_articles cfg now category count) :
    a.title ≠ "" ∧ a.summary ≠ "" := by
  unfold generate_mock_articles at h
  split at h
  · exact absurd h (List.not_mem_nil a)
  · obtain ⟨j, t, ht, rfl⟩ := mockBuild_mem now category _ 0 a h
    have ht' : t ∈ mockTemplates category := List.take_subset _ _ ht
    unfold mockTemplates at ht'
    rcases List.mem_cons.mp ht' with rfl | ht'
    · exact ⟨append_ne_empty_left _ _ (by decide),
        append_ne_empty_right _ _ (by decide)⟩
    rcases List.mem_cons.mp ht' with rfl | ht'
    · exact ⟨append_ne_empty_right _ _ (by decide),
        append_ne_empty_right _ _ (by decide)⟩
    rcases List.mem_cons.mp ht' with rfl | ht'
    · exact ⟨append_ne_empty_right _ _ (by decide),
        append_ne_empty_right _ _ (by decide)⟩
    · exact absurd ht' (List.not_mem_nil t)

/-- The keyed-source stage only yields filtered articles. -/
theorem keyedResults_fields (cfg : NoobieConfig) (gor : String → Nat → Option GNewsResp)
    (jit : Nat → ℚ) (topic : String) (a : NewsArticle)
    (h : a ∈ keyedResults cfg gor jit topic) : a.title ≠ "" ∧ a.summary ≠ "" := by
  unfold keyedResults at h
  split at h
  · exact fetch_gnews_fields _ _ _ _ _ _ h
  · exact absurd h (List.not_mem_nil a)

/-- Every article a topic contributes has non-empty title and summary. -/
theorem fetchTopic_fields (cfg : NoobieConfig) (gor : String → Nat → Option GNewsResp)
    (ror : String → Option RSSFeed) (jit : Nat → ℚ) (now topic : String)
    (a : NewsArticle) (h : a ∈ (fetchTopic cfg gor ror jit now topic).articles) :
    a.title ≠ "" ∧ a.summary ≠ "" := by
  unfold fetchTopic at h
  dsimp only at h
  split at h
  · split at h
    · rcases List.mem_append.mp h with hh | hm
      · rcases List.mem_append.mp hh with hg | hr
        · exact keyedResults_fields _ _ _ _ _ hg
        · exact fetch_rss_feed_fields _ _ _ _ hr
      · exact generate_mock_fields _ _ _ _ _ hm
    · rcases List.mem_append.mp h with hg | hr
      · exact keyedResults_fields _ _ _ _ _ hg
      · exact fetch_rss_feed_fields _ _ _ _ hr
  · split at h
    · rcases List.mem_append.mp h with hh | hm
      · exact keyedResults_fields _ _ _ _ _ hh
      · exact generate_mock_fields _ _ _ _ _ hm
    · exact keyedResults_fields _ _ _ _ _ h

/-- The Python slice keeps only input elements. -/
theorem pySliceTo_subset (n : Int) (l : List α) : pySliceTo n l ⊆ l := by
  unfold pySliceTo
  split
  · exact List.take_subset _ _
  · exact List.take_subset _ _

/-- C2: every article returned by `fetch_gnews`, by `fetch_rss_feed`, and
by `fetch_trending_news` has a non-empty title and a non-empty summary;
articles failing this after normalization never appear in the output. -/
theorem returned_articles_nonempty :
    (∀ (cfg : NoobieConfig) (respond : Nat → Option GNewsResp) (jit : Nat → ℚ)
        (query : String) (maxResults : Nat) (a : NewsArticle),
        a ∈ fetch_gnews cfg respond jit query maxResults →
        a.title ≠ "" ∧ a.summary ≠ "") ∧
    (∀ (feedOracle : Option RSSFeed) (category : String) (maxResults : Nat)
        (a : NewsArticle),
        a ∈ fetch_rss_feed feedOracle category maxResults →
        a.title ≠ "" ∧ a.summary ≠ "") ∧
    (∀ (cfg : NoobieConfig) (gor : String → Nat → Option GNewsResp)
        (ror : String → Option RSSFeed) (jit : Nat → ℚ) (now : String)
        (out : List NewsArticle) (a : NewsArticle),
        fetch_trending_news cfg gor ror jit now = .ok out → a ∈ out →
        a.title ≠ "" ∧ a.summary ≠ "") := by
  refine ⟨fetch_gnews_fields, fetch_rss_feed_fields, ?_⟩
  intro cfg gor ror jit now out a hout ha
  unfold fetch_trending_news at hout
  dsimp only at hout
  cases hd : deduplicate_articles
      ((cfg.news_categories.map fun t =>
        (fetchTopic cfg gor ror jit now t).articles).flatten) with
  | error e => rw [hd] at hout; exact absurd hout (by simp)
  | ok unique =>
    rw [hd] at hout
    injection hout with hout
    rw [← hout] at ha
    have ha2 : a ∈ unique := pySliceTo_subset _ _ ha
    have ha3 := dedupLoop_subset _ [] unique hd ha2
    obtain ⟨l, hl, hal⟩ := List.mem_flatten.mp ha3
    obtain ⟨t, _, rfl⟩ := List.mem_map.mp hl
    exact fetchTopic_fields _ _ _ _ _ _ _ hal

/-- C2 witness: the gnews part at a concrete response containing one
well-formed article. -/
theorem returned_articles_nonempty_witness :
    (gnewsToArticle "q" { title := some "Hello World", description := some "Desc" }).title ≠ "" ∧
    (gnewsToArticle "q" { title := some "Hello World", description := some "Desc" }).summary ≠ "" :=
  returned_articles_nonempty.1
    { news_api_key := some "k", max_articles := 8, mock_mode := false,
      news_categories := [] }
    (fun _ => some { articles := some [{ title := some "Hello World",
                                         description := some "Desc" }] })
    (fun _ => 0) "q" 10
    (gnewsToArticle "q" { title := some "Hello World", description := some "Desc" })
    (by decide)

/-- C5: inside `fetch_trending_news`, the Google-News-RSS fallback is
invoked for a topic exactly when the keyed source contributed at most 1
result for it, and the keyed source contributes nothing when the API key
is missing (falsy). -/
theorem rss_fallback_condition (cfg : NoobieConfig)
    (gor : String → Nat → Option GNewsResp) (ror : String → Option RSSFeed)
    (jit : Nat → ℚ) (now topic : String) :
    ((fetchTopic cfg gor ror jit now topic).rssInvoked = true ↔
      (keyedResults cfg gor jit topic).length ≤ 1) ∧
    (pyTruthy cfg.news_api_key = false → keyedResults cfg gor jit topic = []) := by
  constructor
  · unfold fetchTopic
    dsimp only
    simp [Nat.lt_succ_iff]
  · intro hk
    simp [keyedResults, hk]

/-- C5 witness: a configuration without an API key skips the keyed
source, so its contribution is empty (hence the fallback fires). -/
theorem rss_fallback_condition_witness :
    pyTruthy ({ news_api_key := none, max_articles := 8, mock_mode := false,
                news_categories := [] } : NoobieConfig).news_api_key = false ∧
    keyedResults { news_api_key := none, max_articles := 8, mock_mode := false,
                   news_categories := [] } (fun _ _ => none) (fun _ => 0) "t" = [] :=
  ⟨rfl,
   (rss_fallback_condition
     { news_api_key := none, max_articles := 8, mock_mode := false,
       news_categories := [] }
     (fun _ _ => none) (fun _ => none) (fun _ => 0) "now" "t").2 rfl⟩

/-- The retry loop issues at most `remaining` further requests. -/
theorem retryGo_attempts_le (respond : Nat → Option GNewsResp) (jit : Nat → ℚ)
    (maxRetries : Nat) :
    ∀ remaining attempt : Nat,
      (retryGo respond jit maxRetries attempt remaining).attempts ≤ remaining := by
  intro remaining
  induction remaining with
  | zero => intro attempt; simp [retryGo]
  | succ n ih =>
    intro attempt
    cases hr : respond attempt with
    | some d => simp [retryGo, hr]
    | none =>
      have := ih (attempt + 1)
      simp only [retryGo, hr]
      omega

/-- C6: `_make_request_with_retry` issues at most 3 requests; when every
attempt fails it issues exactly 3, sleeps the exponential-backoff delays
`2 ** attempt + jitter` between attempts (base doubling per attempt, no
sleep after the last), returns `None`, and `fetch_gnews` turns that into
the empty list — the failure is absorbed, never propagated. -/
theorem gnews_retry_absorbs_failure (respond : Nat → Option GNewsResp) (jit : Nat → ℚ) :
    (make_request_with_retry respond jit 3).attempts ≤ 3 ∧
    ((∀ k, respond k = none) →
      (make_request_with_retry respond jit 3).result = none ∧
      (make_request_with_retry respond jit 3).attempts = 3 ∧
      (make_request_with_retry respond jit 3).waits = [2 ^ 0 + jit 0, 2 ^ 1 + jit 1] ∧
      ∀ (cfg : NoobieConfig) (query : String) (maxResults : Nat),
        fetch_gnews cfg respond jit query maxResults = []) := by
  constructor
  · exact retryGo_attempts_le respond jit 3 3 0
  · intro hall
    have htrace : make_request_with_retry respond jit 3 =
        ⟨none, 3, [2 ^ 0 + jit 0, 2 ^ 1 + jit 1]⟩ := by
      simp [make_request_with_retry, retryGo, hall]
    refine ⟨by rw [htrace], by rw [htrace], by rw [htrace], ?_⟩
    intro cfg query maxResults
    unfold fetch_gnews
    split
    · rfl
    · rw [htrace]

/-- C6 witness: the all-attempts-fail case at the constant failing oracle. -/
theorem gnews_retry_absorbs_failure_witness :
    (make_request_with_retry (fun _ => none) (fun _ => 0) 3).result = none ∧
    fetch_gnews { news_api_key := some "k", max_articles := 8, mock_mode := false,
                  news_categories := [] } (fun _ => none) (fun _ => 0) "q" 10 = [] :=
  ⟨((gnews_retry_absorbs_failure (fun _ => none) (fun _ => 0)).2 (fun _ => rfl)).1,
   ((gnews_retry_absorbs_failure (fun _ => none) (fun _ => 0)).2 (fun _ => rfl)).2.2.2
     { news_api_key := some "k", max_articles := 8, mock_mode := false,
       news_categories := [] } "q" 10⟩

/-- C7: the pipeline processes topics in declaration order — per-topic
results concatenated in topic order, deduplicated, then truncated; with 2
topics of 3 pairwise non-duplicate articles each and `max_articles = 4`
it returns exactly the first 4 articles of the concatenation. -/
theorem fetch_trending_order_truncation :
    (∀ (cfg : NoobieConfig) (gor : String → Nat → Option GNewsResp)
        (ror : String → Option RSSFeed) (jit : Nat → ℚ) (now : String),
        fetch_trending_news cfg gor ror jit now =
          (deduplicate_articles
            ((cfg.news_categories.map fun t =>
              (fetchTopic cfg gor ror jit now t).articles).flatten)).map
            (pySliceTo cfg.max_articles)) ∧
    (∀ (cfg : NoobieConfig) (gor : String → Nat → Option GNewsResp)
        (ror : String → Option RSSFeed) (jit : Nat → ℚ) (now t1 t2 : String),
        cfg.news_categories = [t1, t2] →
        cfg.max_articles = 4 →
        (fetchTopic cfg gor ror jit now t1).articles.length = 3 →
        (fetchTopic cfg gor ror jit now t2).articles.length = 3 →
        deduplicate_articles
            ((fetchTopic cfg gor ror jit now t1).articles ++
              (fetchTopic cfg gor ror jit now t2).articles) =
          .ok ((fetchTopic cfg gor ror jit now t1).articles ++
              (fetchTopic cfg gor ror jit now t2).articles) →
        fetch_trending_news cfg gor ror jit now =
          .ok (((fetchTopic cfg gor ror jit now t1).articles ++
              (fetchTopic cfg gor ror jit now t2).articles).take 4) ∧
        (((fetchTopic cfg gor ror jit now t1).articles ++
          (fetchTopic cfg gor ror jit now t2).articles).take 4).length = 4) := by
  constructor
  · intro cfg gor ror jit now
    unfold fetch_trending_news
    dsimp only
    cases hd : deduplicate_articles
        ((cfg.news_categories.map fun t =>
          (fetchTopic cfg gor ror jit now t).articles).flatten) <;> rfl
  · intro cfg gor ror jit now t1 t2 hcats hmax h1 h2 hded
    constructor
    · unfold fetch_trending_news
      dsimp only
      rw [hcats]
      simp only [List.map_cons, List.map_nil, List.flatten_cons, List.flatten_nil,
        List.append_nil]
      rw [hded, hmax]
      simp [pySliceTo]
    · simp [List.length_take, List.length_append, h1, h2]

/-- C7 witness: 2 topics × 3 unique articles, truncated at the 4th. -/
theorem fetch_trending_order_truncation_witness :
    fetch_trending_news cfgW7 gorW (fun _ => none) (fun _ => 0) "now" =
      .ok (((fetchTopic cfgW7 gorW (fun _ => none) (fun _ => 0) "now" "alpha").articles ++
        (fetchTopic cfgW7 gorW (fun _ => none) (fun _ => 0) "now" "beta").articles).take 4) ∧
    (((fetchTopic cfgW7 gorW (fun _ => none) (fun _ => 0) "now" "alpha").articles ++
      (fetchTopic cfgW7 gorW (fun _ => none) (fun _ => 0) "now" "beta").articles).take 4).length = 4 :=
  fetch_trending_order_truncation.2 cfgW7 gorW (fun _ => none) (fun _ => 0) "now"
    "alpha" "beta" rfl rfl (by decide) (by decide) (by decide)

/-- Rebuilding an article from its own `to_dict` output restores it. -/
theorem articleFromDict_toDict (a : NewsArticle) :
    articleFromDict (articleToDict a) = .ok a := by
  rcases a with ⟨t, s, u, pd, src, c, co, au, im, sc⟩
  cases co <;> cases au <;> cases im <;> cases sc <;> rfl

/-- The load loop inverts the serialization of a whole list. -/
theorem loadArticlesLoop_map (l : List NewsArticle) :
    loadArticlesLoop (l.map articleToDict) = .ok l := by
  induction l with
  | nil => rfl
  | cons a rest ih =>
    simp only [List.map_cons, loadArticlesLoop, articleFromDict_toDict, ih]

/-- C8: cache round-trip — saving any article list with
`save_articles_cache` and reading it back with `load_articles_cache`
yields an equal list, the record shape unchanged. -/
theorem cache_roundtrip (articles : List NewsArticle) (timestamp : String) :
    load_articles_cache (save_articles_cache articles timestamp) = articles := by
  unfold load_articles_cache loadCacheE save_articles_cache
  dsimp only
  have hl : List.lookup "articles"
      [("timestamp", JValue.str timestamp),
       ("count", JValue.num (articles.length : ℚ)),
       ("articles", JValue.arr (articles.map articleToDict))] =
      some (JValue.arr (articles.map articleToDict)) := rfl
  rw [hl]
  dsimp only [Option.getD]
  rw [loadArticlesLoop_map]

/-- C10: when both real sources contribute nothing for a topic, mock mode
appends exactly the 2 template-generated mock articles for it; with mock
mode off, `generate_mock_articles` is empty and the topic contributes
nothing. -/
theorem mock_fallback_stage (cfg : NoobieConfig)
    (gor : String → Nat → Option GNewsResp) (ror : String → Option RSSFeed)
    (jit : Nat → ℚ) (now topic : String)
    (hkey : keyedResults cfg gor jit topic = [])
    (hrss : fetch_google_news_rss ror topic 3 = []) :
    (cfg.mock_mode = true →
      (fetchTopic cfg gor ror jit now topic).articles =
        generate_mock_articles cfg now topic 2 ∧
      (generate_mock_articles cfg now topic 2).length = 2) ∧
    (cfg.mock_mode = false →
      (fetchTopic cfg gor ror jit now topic).articles = [] ∧
      generate_mock_articles cfg now topic 2 = []) := by
  constructor
  · intro hm
    constructor
    · unfold fetchTopic
      dsimp only
      rw [hkey, hrss]
      simp [hm]
    · simp [generate_mock_articles, hm, mockTemplates, mockBuild]
  · intro hm
    constructor
    · unfold fetchTopic
      dsimp only
      rw [hkey, hrss]
      simp [hm]
    · simp [generate_mock_articles, hm]

/-- C10 witness: a topic whose sources all fail still contributes the 2
mock articles in mock mode. -/
theorem mock_fallback_stage_witness :
    keyedResults cfgMockW (fun _ _ => none) (fun _ => 0) "sports" = [] ∧
    fetch_google_news_rss (fun _ => none) "sports" 3 = [] ∧
    (fetchTopic cfgMockW (fun _ _ => none) (fun _ => none) (fun _ => 0) "now" "sports").articles =
      generate_mock_articles cfgMockW "now" "sports" 2 ∧
    (generate_mock_articles cfgMockW "now" "sports" 2).length = 2 :=
  ⟨rfl, rfl,
   (mock_fallback_stage cfgMockW (fun _ _ => none) (fun _ => none) (fun _ => 0)
     "now" "sports" rfl rfl).1 rfl⟩

end Noobie
